import Mathlib

/-!
Verification of the Document Intelligence & Question Pre-Fill Pipeline
(Aspiro backend).  The definitions below are shallow embeddings of the
JavaScript sources:

* `src/services/aiSuggestionService.js`  — question classifier and the
  AI answer collaborator wrapper (the external OpenAI call is modelled
  as an explicit `Except String String` outcome parameter);
* `src/unnamed/part_012` — `DocumentParser` (section finder and field
  extractors) and `QuestionPreFillService` (profile merging and answer
  generation);
* `src/unnamed/part_003` — the `preFillQuestions` controller and
  `cleanupUploadedFiles`.

JavaScript strings are modelled as Lean `String` (ASCII assumptions:
`toLowerCase` is ASCII lowering), numbers as `ℚ` where fractional
confidences matter, and `undefined`/absent values as `Option`/empty
strings mirroring JS truthiness at every use site.
-/

/-! ## String toolbox (models of the JS string primitives in use) -/

/-- ASCII model of JS `String.prototype.toLowerCase` on a character. -/
def lowerChar (c : Char) : Char :=
  if 'A' ≤ c ∧ c ≤ 'Z' then Char.ofNat (c.toNat + 32) else c

/-- Model of JS `toLowerCase` on a string. -/
def lowerStr (s : String) : String :=
  String.mk (s.toList.map lowerChar)

/-- JS whitespace class (the characters that occur in the texts we model). -/
def isJsSpace (c : Char) : Bool :=
  c == ' ' || c == '\t' || c == '\n' || c == '\r'

/-- Characters matched by `[A-Za-z]` (the `/i` reading of `[A-Z]`/`[a-z]`). -/
def isAsciiLetter (c : Char) : Bool :=
  ('A' ≤ c && c ≤ 'Z') || ('a' ≤ c && c ≤ 'z')

/-- Substring containment: model of JS `hay.includes(sub)` on char lists. -/
def subInList (sub hay : List Char) : Bool :=
  match hay with
  | [] => sub.isEmpty
  | _ :: t => sub.isPrefixOf hay || subInList sub t

/-- Model of JS `s.includes(sub)`. -/
def containsStr (s sub : String) : Bool :=
  subInList sub.toList s.toList

/-- Model of JS `s.split(c)` for a single-character separator. -/
def splitOnChar (c : Char) (s : List Char) : List (List Char) :=
  match s with
  | [] => [[]]
  | a :: t =>
    let rest := splitOnChar c t
    if a == c then [] :: rest
    else match rest with
      | [] => [[a]]
      | r :: rs => (a :: r) :: rs

/-- Model of JS `String.prototype.trim` on a char list. -/
def trimList (l : List Char) : List Char :=
  ((l.dropWhile (isJsSpace ·)).reverse.dropWhile (isJsSpace ·)).reverse

/-- Model of JS `s.trim()`. -/
def jsTrim (s : String) : String := String.mk (trimList s.toList)

/-- Model of JS `arr.join(sep)` for a list of strings. -/
def joinWith (sep : String) (l : List String) : String :=
  String.intercalate sep l

/-! ## Data model

`Question` mirrors the admin-defined question documents consumed by the
pipeline (`_id`, `text`, `type`, `options`).  `DocData` mirrors the
structured-profile object produced by `DocumentParser.parseStructuredData`
and accumulated by `combineDocumentData`. -/

structure Question where
  id : Nat
  text : String
  type : String
  options : Option (List String)
deriving DecidableEq, Repr

structure EduEntry where
  degree : String
  field : String
  institution : String
  year : String
deriving DecidableEq, Repr

structure ExpEntry where
  title : String
  company : String
  duration : String
  description : String
deriving DecidableEq, Repr

structure CertEntry where
  name : String
  issuer : String
  year : String
deriving DecidableEq, Repr

structure ProjEntry where
  name : String
  description : String
deriving DecidableEq, Repr

structure AchEntry where
  title : String
  description : String
deriving DecidableEq, Repr

structure PersonalInfo where
  name : Option String
  email : Option String
  phone : Option String
  location : Option String
deriving DecidableEq, Repr

structure ContactInfo where
  linkedin : Option String
  github : Option String
  website : Option String
deriving DecidableEq, Repr

structure DocData where
  personalInfo : PersonalInfo
  education : List EduEntry
  experience : List ExpEntry
  skills : List String
  certifications : List CertEntry
  languages : List String
  projects : List ProjEntry
  achievements : List AchEntry
  contactInfo : ContactInfo
  objective : String
  summary : String
deriving DecidableEq, Repr

def emptyPersonalInfo : PersonalInfo := ⟨none, none, none, none⟩

def emptyContactInfo : ContactInfo := ⟨none, none, none⟩

/-- The empty accumulator object built at the top of `combineDocumentData`. -/
def emptyDocData : DocData :=
  { personalInfo := emptyPersonalInfo
    education := []
    experience := []
    skills := []
    certifications := []
    languages := []
    projects := []
    achievements := []
    contactInfo := emptyContactInfo
    objective := ""
    summary := "" }

/-! ## Question classifier (`src/services/aiSuggestionService.js`) -/

/-- `determineQuestionType` (aiSuggestionService.js:290-308): keyword
matching on the lowercased question text, first matching group wins,
`general` default. -/
def determineQuestionType (questionText : String) : String :=
  let text := lowerStr questionText
  if containsStr text "skill" || containsStr text "programming" || containsStr text "technology" then
    "skills"
  else if containsStr text "education" || containsStr text "degree" || containsStr text "university" then
    "education"
  else if containsStr text "experience" || containsStr text "work" || containsStr text "career" then
    "experience"
  else if containsStr text "goal" || containsStr text "objective" || containsStr text "aspiration" then
    "career_goals"
  else if containsStr text "certification" || containsStr text "certificate" then
    "certifications"
  else if containsStr text "language" then
    "languages"
  else
    "general"

/-- `hasDirectMatch` (aiSuggestionService.js:316-331). -/
def hasDirectMatch (documentData : DocData) (questionType : String) : Bool :=
  match questionType with
  | "skills" => !documentData.skills.isEmpty
  | "education" => !documentData.education.isEmpty
  | "experience" => !documentData.experience.isEmpty
  | "certifications" => !documentData.certifications.isEmpty
  | "languages" => !documentData.languages.isEmpty
  | _ => false

/-- The arithmetic core of `calculateConfidence`: `0` for an empty list,
otherwise `Math.min(dataCount / 3, 1)`. -/
def confOfCount (n : Nat) : ℚ :=
  if n = 0 then 0 else min ((n : ℚ) / 3) 1

/-- `calculateConfidence` (aiSuggestionService.js:339-346).  The JS body
reads `documentData[questionType]` dynamically; the match below spells
out that property access for every property present on the combined
data object (array properties use their length, the non-array string
properties `objective`/`summary` count as one data point when truthy,
and any other key is `undefined`, giving confidence 0). -/
def calculateConfidence (documentData : DocData) (questionType : String) : ℚ :=
  match questionType with
  | "skills" => confOfCount documentData.skills.length
  | "education" => confOfCount documentData.education.length
  | "experience" => confOfCount documentData.experience.length
  | "certifications" => confOfCount documentData.certifications.length
  | "languages" => confOfCount documentData.languages.length
  | "projects" => confOfCount documentData.projects.length
  | "achievements" => confOfCount documentData.achievements.length
  | "objective" => if documentData.objective == "" then 0 else min ((1 : ℚ) / 3) 1
  | "summary" => if documentData.summary == "" then 0 else min ((1 : ℚ) / 3) 1
  | _ => 0

/-- `canGenerateSuggestions` (aiSuggestionService.js:353-356). -/
def canGenerateSuggestions (questionType : String) : Bool :=
  ["skills", "education", "experience", "career_goals", "certifications",
   "languages", "general"].contains questionType

structure AutoMapping where
  questionId : Nat
  questionText : String
  questionType : String
  confidence : ℚ
deriving DecidableEq, Repr

structure BasicMapping where
  questionId : Nat
  questionText : String
  questionType : String
deriving DecidableEq, Repr

structure Mappings where
  autoFill : List AutoMapping
  aiSuggestions : List BasicMapping
  noMatch : List BasicMapping
deriving DecidableEq, Repr

/-- `analyzeDocumentMapping` (aiSuggestionService.js:249-283): the loop
over `questions`, pushing each question into exactly one bucket, is
rendered as structural recursion preserving the push order. -/
def analyzeDocumentMapping (documentData : DocData) : List Question → Mappings
  | [] => ⟨[], [], []⟩
  | q :: rest =>
    let m := analyzeDocumentMapping documentData rest
    let questionType := determineQuestionType q.text
    if hasDirectMatch documentData questionType then
      { m with autoFill :=
          ⟨q.id, q.text, questionType, calculateConfidence documentData questionType⟩ :: m.autoFill }
    else if canGenerateSuggestions questionType then
      { m with aiSuggestions := ⟨q.id, q.text, questionType⟩ :: m.aiSuggestions }
    else
      { m with noMatch := ⟨q.id, q.text, questionType⟩ :: m.noMatch }

/-! ## AI answer generation (`src/services/aiSuggestionService.js`) -/

/-- The bidirectional case-insensitive substring test used by the option
matching lambdas in `generateAutoFillAnswer` (part_012:851-942). -/
def biMatch (option value : String) : Bool :=
  containsStr (lowerStr option) (lowerStr value) ||
  containsStr (lowerStr value) (lowerStr option)

/-- The option test of `parseDirectAnswer` (aiSuggestionService.js:174-178):
exact lowercase equality or containment in either direction. -/
def matchOpt (option mainAnswer : String) : Bool :=
  lowerStr option == lowerStr mainAnswer ||
  containsStr (lowerStr option) (lowerStr mainAnswer) ||
  containsStr (lowerStr mainAnswer) (lowerStr option)

/-- `replace(/^["']|["']$/g, '')`: drop one leading and one trailing
quote character. -/
def stripEdgeQuotes (s : String) : String :=
  let l := s.toList
  let l1 := match l with
    | c :: rest => if c == '"' || c == Char.ofNat 39 then rest else l
    | [] => []
  let l2 := match l1.reverse with
    | c :: rest => if c == '"' || c == Char.ofNat 39 then rest.reverse else l1
    | [] => l1
  String.mk l2

/-- `parseDirectAnswer` (aiSuggestionService.js:165-186). -/
def parseDirectAnswer (aiResponse : String) (existingOptions : List String) : String :=
  let cleanResponse := stripEdgeQuotes (jsTrim aiResponse)
  let mainAnswer := jsTrim (String.mk ((splitOnChar '\n' cleanResponse.toList).headD []))
  if existingOptions.length > 0 then
    match existingOptions.find? (fun option => matchOpt option mainAnswer) with
    | some matchingOption => matchingOption
    | none => if mainAnswer == "" then "Not specified" else mainAnswer
  else
    if mainAnswer == "" then "Not specified" else mainAnswer

/-- `getFallbackAnswer` (aiSuggestionService.js:194-210). -/
def getFallbackAnswer (questionType : String) (existingOptions : List String) : String :=
  match existingOptions with
  | option :: _ => option
  | [] =>
    match questionType with
    | "skills" => "Not specified"
    | "education" => "Not specified"
    | "experience" => "Not specified"
    | "career_goals" => "Not specified"
    | "general" => "Not specified"
    | _ => "Not specified"

structure GenResult where
  success : Bool
  answer : String
  fallback : Bool
deriving DecidableEq, Repr

/-- `generateDirectAnswer` (aiSuggestionService.js:22-76).  The OpenAI
call (including a missing API key) is abstracted as `collab`: `.ok raw`
is the collaborator's raw completion text, `.error msg` is any thrown
error or timeout.  On error the catch block returns the fallback answer
with `metadata.fallback = true`. -/
def generateDirectAnswer (collab : Except String String) (questionType : String)
    (existingOptions : List String) : GenResult :=
  match collab with
  | .ok raw => ⟨true, parseDirectAnswer raw existingOptions, false⟩
  | .error _ => ⟨false, getFallbackAnswer questionType existingOptions, true⟩

/-! ## Profile merging (`src/unnamed/part_012`, QuestionPreFillService)

`isDuplicate` (part_012:779-795) is a single untyped JS function applied
to every list field.  `ItemView` is the projection it actually reads
from an item: either the string itself, or the four key properties
`name`/`title`/`degree`/`company` (absent keys are `none`). -/

inductive ItemView where
  | str (s : String)
  | obj (name title degree company : Option String)

class ItemLike (α : Type) where
  view : α → ItemView

instance : ItemLike String := ⟨ItemView.str⟩

instance : ItemLike EduEntry := ⟨fun e => .obj none none (some e.degree) none⟩

instance : ItemLike ExpEntry := ⟨fun e => .obj none (some e.title) none (some e.company)⟩

instance : ItemLike CertEntry := ⟨fun c => .obj (some c.name) none none none⟩

instance : ItemLike ProjEntry := ⟨fun p => .obj (some p.name) none none none⟩

instance : ItemLike AchEntry := ⟨fun a => .obj none (some a.title) none none⟩

/-- `existing[key] && item[key] && existing[key].toLowerCase() === item[key].toLowerCase()`
(empty strings are falsy, absent keys are undefined). -/
def keyMatch (a b : Option String) : Bool :=
  match a, b with
  | some x, some y => !(x == "") && !(y == "") && (lowerStr x == lowerStr y)
  | _, _ => false

/-- `isDuplicate` (part_012:779-795): strings use `array.includes(item)`
(exact equality against string elements); objects match when any common
key property agrees case-insensitively with an existing object. -/
def isDuplicate {α : Type} [ItemLike α] (array : List α) (item : α) : Bool :=
  match ItemLike.view item with
  | .str s =>
    array.any fun existing =>
      match ItemLike.view existing with
      | .str t => t == s
      | .obj .. => false
  | .obj n t dg c =>
    array.any fun existing =>
      match ItemLike.view existing with
      | .str _ => false
      | .obj en et edg ec =>
        keyMatch en n || keyMatch et t || keyMatch edg dg || keyMatch ec c

/-- The per-field merge loop of `combineDocumentData` (part_012:744-752):
append each incoming item unless it is a duplicate of the accumulator. -/
def mergeList {α : Type} [ItemLike α] (acc : List α) (items : List α) : List α :=
  items.foldl (fun a item => if isDuplicate a item then a else a ++ [item]) acc

/-- A `ParsedDocument` as produced by `parseAllDocuments` (part_012:680-709):
only the fields `combineDocumentData` reads. -/
structure ParsedDoc where
  success : Bool
  structuredData : Option DocData
deriving DecidableEq, Repr

/-- `if (data.personalInfo[key] && !combinedData.personalInfo[key])` for one key. -/
def mergeOptField (acc incoming : Option String) : Option String :=
  match incoming with
  | some v =>
    if !(v == "") && (match acc with | some a => a == "" | none => true) then some v else acc
  | none => acc

def mergePersonalInfo (acc incoming : PersonalInfo) : PersonalInfo :=
  { name := mergeOptField acc.name incoming.name
    email := mergeOptField acc.email incoming.email
    phone := mergeOptField acc.phone incoming.phone
    location := mergeOptField acc.location incoming.location }

def mergeContactInfo (acc incoming : ContactInfo) : ContactInfo :=
  { linkedin := mergeOptField acc.linkedin incoming.linkedin
    github := mergeOptField acc.github incoming.github
    website := mergeOptField acc.website incoming.website }

/-- One iteration of the `for (const doc of parsedDocuments)` loop of
`combineDocumentData` (part_012:731-768). -/
def combineStep (combinedData : DocData) (doc : ParsedDoc) : DocData :=
  if h : doc.success = true ∧ doc.structuredData.isSome then
    let data := doc.structuredData.get h.2
    { personalInfo := mergePersonalInfo combinedData.personalInfo data.personalInfo
      education := mergeList combinedData.education data.education
      experience := mergeList combinedData.experience data.experience
      skills := mergeList combinedData.skills data.skills
      certifications := mergeList combinedData.certifications data.certifications
      languages := mergeList combinedData.languages data.languages
      projects := mergeList combinedData.projects data.projects
      achievements := mergeList combinedData.achievements data.achievements
      contactInfo := mergeContactInfo combinedData.contactInfo data.contactInfo
      objective := if data.objective ≠ "" ∧ combinedData.objective = "" then data.objective
                   else combinedData.objective
      summary := if data.summary ≠ "" ∧ combinedData.summary = "" then data.summary
                 else combinedData.summary }
  else
    combinedData

/-- `combineDocumentData` (part_012:716-771). -/
def combineDocumentData (parsedDocuments : List ParsedDoc) : DocData :=
  parsedDocuments.foldl combineStep emptyDocData

/-! ## Answer generation (`src/unnamed/part_012`, QuestionPreFillService) -/

structure AutoFillAnswer where
  type : String
  answer : Option String
  confidence : ℚ
  source : String
deriving DecidableEq, Repr

/-- The `answer`/`confidence` pair computed by the switch of
`generateAutoFillAnswer` (part_012:846-951): both start as `null`/0 and
each case assigns them only when the profile list is non-empty and (for
multiple-choice questions) an option matches. -/
def autoFillRes (question : Question) (documentData : DocData)
    (questionType : String) : Option String × ℚ :=
    match questionType with
    | "skills" =>
      if documentData.skills.isEmpty then (none, 0)
      else if question.type == "multiple-choice" && question.options.isSome then
        let opts := question.options.getD []
        match documentData.skills.find? (fun skill => opts.any fun option => biMatch option skill) with
        | some matchingSkill => (opts.find? (fun option => biMatch option matchingSkill), 9/10)
        | none => (none, 0)
      else
        (some (joinWith ", " documentData.skills), 8/10)
    | "education" =>
      match documentData.education with
      | [] => (none, 0)
      | education :: _ =>
        if question.type == "multiple-choice" && question.options.isSome then
          match (question.options.getD []).find? (fun option => biMatch option education.degree) with
          | some matchingDegree => (some matchingDegree, 9/10)
          | none => (none, 0)
        else
          (some (education.degree ++ " in " ++ education.field), 8/10)
    | "experience" =>
      match documentData.experience with
      | [] => (none, 0)
      | experience :: _ =>
        if question.type == "multiple-choice" && question.options.isSome then
          match (question.options.getD []).find? (fun option => biMatch option experience.title) with
          | some matchingExperience => (some matchingExperience, 9/10)
          | none => (none, 0)
        else
          (some (experience.title ++ " at " ++ experience.company), 8/10)
    | "certifications" =>
      match documentData.certifications with
      | [] => (none, 0)
      | certification :: _ =>
        if question.type == "multiple-choice" && question.options.isSome then
          match (question.options.getD []).find? (fun option => biMatch option certification.name) with
          | some matchingCert => (some matchingCert, 9/10)
          | none => (none, 0)
        else
          (some certification.name, 8/10)
    | "languages" =>
      if documentData.languages.isEmpty then (none, 0)
      else if question.type == "multiple-choice" && question.options.isSome then
        let opts := question.options.getD []
        match documentData.languages.find? (fun lang => opts.any fun option => biMatch option lang) with
        | some matchingLanguage => (opts.find? (fun option => biMatch option matchingLanguage), 9/10)
        | none => (none, 0)
      else
        (some (joinWith ", " documentData.languages), 8/10)
    | _ => (none, 0)

/-- `generateAutoFillAnswer` (part_012:841-980): wraps the switch result
with the fixed `type` and `source` fields. -/
def generateAutoFillAnswer (question : Question) (documentData : DocData)
    (questionType : String) : AutoFillAnswer :=
  { type := "auto-fill"
    answer := (autoFillRes question documentData questionType).1
    confidence := (autoFillRes question documentData questionType).2
    source := "document-parsing" }

structure AiAnswer where
  type : String
  answer : String
  confidence : ℚ
  source : String
  fallback : Bool
deriving DecidableEq, Repr

/-- `generateAISuggestions` (part_012:989-1027): wraps
`generateDirectAnswer` (which never throws — it catches internally), so
the result always has `source = 'ai-generation'`; confidence is 0.7 on
success and 0.3 otherwise; the fallback marker lives in the metadata. -/
def generateAISuggestions (collab : Except String String) (question : Question)
    (_documentData : DocData) (questionType : String) : AiAnswer :=
  let aiResult := generateDirectAnswer collab questionType (question.options.getD [])
  { type := "ai-suggestions"
    answer := aiResult.answer
    confidence := if aiResult.success then 7/10 else 3/10
    source := "ai-generation"
    fallback := aiResult.fallback }

inductive AnswerVal where
  | auto (a : AutoFillAnswer)
  | ai (a : AiAnswer)
deriving DecidableEq, Repr

/-- `generatePreFilledAnswers` (part_012:804-832): the auto-fill loop
runs first, then the ai-suggestion loop; a mapping whose question id is
not found contributes nothing; no answer is produced for the `noMatch`
bucket.  `collab` supplies the collaborator outcome per question. -/
def generatePreFilledAnswers (collab : Question → Except String String)
    (questions : List Question) (documentData : DocData)
    (questionMappings : Mappings) : List (Nat × AnswerVal) :=
  (questionMappings.autoFill.filterMap fun mapping =>
    (questions.find? (fun q => q.id == mapping.questionId)).map fun question =>
      (mapping.questionId, AnswerVal.auto (generateAutoFillAnswer question documentData mapping.questionType)))
  ++
  (questionMappings.aiSuggestions.filterMap fun mapping =>
    (questions.find? (fun q => q.id == mapping.questionId)).map fun question =>
      (mapping.questionId, AnswerVal.ai (generateAISuggestions (collab question) question documentData mapping.questionType)))

/-! ## Pipeline orchestration (`part_012` and `part_003`) -/

structure FileInfo where
  path : String
  mimetype : String
  originalname : String
deriving DecidableEq, Repr

/-- `parseAllDocuments` (part_012:680-709): per-document parsing with the
per-document try/catch absorbed into the `parse` outcome function (a
thrown error becomes a `success:false` entry). -/
def parseAllDocuments (parse : FileInfo → ParsedDoc) (uploadedFiles : List FileInfo) :
    List ParsedDoc :=
  uploadedFiles.map parse

structure PipelineResult where
  success : Bool
  parsedDocuments : List ParsedDoc
  combinedDocumentData : DocData
  questionMappings : Mappings
  preFilledAnswers : List (Nat × AnswerVal)
deriving DecidableEq, Repr

/-- `processDocumentsAndPreFill` (part_012:624-673).  Every step below is
total (all internal errors are caught one level down), so the enclosing
catch branch that would return `success:false` is unreachable and the
result always carries `success := true`. -/
def processDocumentsAndPreFill (parse : FileInfo → ParsedDoc)
    (collab : Question → Except String String)
    (uploadedFiles : List FileInfo) (questions : List Question) : PipelineResult :=
  let parsedDocuments := parseAllDocuments parse uploadedFiles
  let combinedDocumentData := combineDocumentData parsedDocuments
  let questionMappings := analyzeDocumentMapping combinedDocumentData questions
  let preFilledAnswers := generatePreFilledAnswers collab questions combinedDocumentData questionMappings
  { success := true
    parsedDocuments := parsedDocuments
    combinedDocumentData := combinedDocumentData
    questionMappings := questionMappings
    preFilledAnswers := preFilledAnswers }

structure CleanupResult where
  deleted : List String
  errors : List String
deriving DecidableEq, Repr

/-- `cleanupUploadedFiles` (part_003:310-335): delete each existing path;
`fsExists` models `fs.existsSync` and `unlinkThrows` a failing
`fs.unlinkSync` (recorded in `errors`, never thrown). -/
def cleanupUploadedFiles (fsExists : String → Bool) (unlinkThrows : String → Bool)
    (filePaths : List String) : CleanupResult :=
  filePaths.foldl
    (fun results filePath =>
      if fsExists filePath then
        if unlinkThrows filePath then
          { results with errors := results.errors ++ [filePath] }
        else
          { results with deleted := results.deleted ++ [filePath] }
      else
        results)
    ⟨[], []⟩

structure CtrlOutcome where
  status : Nat
  ok : Bool
  cleaned : Bool
deriving DecidableEq, Repr

/-- `preFillQuestions` (part_003:553-716).  External outcomes are
explicit: `authOk` is the user lookup / role check, `logSaveOk` the
first `processingLog.save()` (a failure there throws into the outer
catch, which cleans up and answers 500; the second save is wrapped in
its own try/catch and cannot fail the request).  `cleaned` records
whether `cleanupUploadedFiles` was invoked on the batch's file paths
before responding.  The `!preFillResults.success` branch (part_003:606-616)
returns a 500 error WITHOUT cleaning up; with the embedded pipeline it
is unreachable since `processDocumentsAndPreFill` always succeeds. -/
def preFillQuestionsRun (authOk : Bool) (parse : FileInfo → ParsedDoc)
    (collab : Question → Except String String)
    (uploadedFiles : List FileInfo) (questions : List Question)
    (logSaveOk : Bool) : CtrlOutcome :=
  if !authOk then ⟨403, false, false⟩
  else if uploadedFiles.isEmpty then ⟨400, false, false⟩
  else if questions.isEmpty then ⟨404, false, false⟩
  else if !logSaveOk then ⟨500, false, true⟩
  else
    let preFillResults := processDocumentsAndPreFill parse collab uploadedFiles questions
    if !preFillResults.success then ⟨500, false, false⟩
    else ⟨200, true, true⟩

/-! ## DocumentParser field extractors (`src/unnamed/part_012`)

`extractEducation` (part_012:283-304) and `extractLanguages`
(part_012:395-410) are embedded below together with `findSection`
(part_012:515-542).  The education regex
`/([A-Z][a-z]+(?:\s+[A-Z][a-z]+)*)\s+(?:in\s+)?([A-Z][a-z]+(?:\s+[A-Z][a-z]+)*)/gi`
is implemented directly: with the `/i` flag a "word" is a maximal run of
two or more ASCII letters, a "phrase" is a word chain joined by
whitespace, and the greedy backtracking tries the longest phrase first.
Letter runs and whitespace runs border disjoint character classes, so
only the number of words in a phrase ever backtracks. -/

/-- One regex word `[A-Z][a-z]+` under `/i`: a maximal letter run of
length at least two. -/
def wordSplit (s : List Char) : Option (List Char × List Char) :=
  let w := s.takeWhile (isAsciiLetter ·)
  if 2 ≤ w.length then some (w, s.dropWhile (isAsciiLetter ·)) else none

/-- `\s+`: a maximal whitespace run of length at least one. -/
def wsSplit (s : List Char) : Option (List Char × List Char) :=
  let w := s.takeWhile (isJsSpace ·)
  if 1 ≤ w.length then some (w, s.dropWhile (isJsSpace ·)) else none

/-- All candidate matches of `word(\s+word)*` at the head of `s`, as
(consumed text, remainder), ordered by increasing word count. -/
def chainCands (fuel : Nat) (s : List Char) : List (List Char × List Char) :=
  match fuel with
  | 0 => []
  | fuel + 1 =>
    match wordSplit s with
    | none => []
    | some (w, r) =>
      (w, r) :: (match wsSplit r with
        | none => []
        | some (ws, r2) => (chainCands fuel r2).map fun p => (w ++ ws ++ p.1, p.2))

/-- The greedy (longest) phrase at the head of `s`; used for the second
capture group, after which the pattern ends. -/
def phraseAt (s : List Char) : Option (List Char × List Char) :=
  (chainCands (s.length + 1) s).getLast?

/-- Case-insensitive literal at the head of `s` (a regex literal under
`/i`); list `==` forces equal lengths, so a short tail never matches. -/
def ciStartsWith (lit : String) (s : List Char) : Bool :=
  (s.take lit.toList.length).map lowerChar == lit.toList.map lowerChar

/-- The shared pattern tail `\s+(?:lit\s+|…)?([A-Z][a-z]+(?:\s+[A-Z][a-z]+)*)`
after the first capture group — `(?:in\s+)?` for the degree pattern,
`(?:at\s+|@\s+)?` for the job pattern.  The optional group is greedy:
its alternatives are tried in order and it backs off to empty when no
phrase follows. -/
def pairTail (infixLits : List String) (r1 : List Char) : Option (List Char × List Char) :=
  match wsSplit r1 with
  | none => none
  | some (_, r2) =>
    (infixLits.findSome? fun lit =>
      if ciStartsWith lit r2 then
        match wsSplit (r2.drop lit.toList.length) with
        | some (_, r4) => phraseAt r4
        | none => none
      else none) <|> phraseAt r2

/-- A full match of the two-phrase pattern anchored at the head of `s`:
the first group is tried longest-first (greedy `*` with backtracking);
returns the two captures and the remainder after the match. -/
def matchPairAt (infixLits : List String) (s : List Char) :
    Option (List Char × List Char × List Char) :=
  ((chainCands (s.length + 1) s).reverse).findSome? fun p =>
    (pairTail infixLits p.2).map fun q => (p.1, q.1, q.2)

/-- The `while ((match = pattern.exec(section)) !== null)` loop for the
two-phrase patterns: leftmost matches, resuming right after each match;
yields (match.index, group 1, group 2). -/
def execPairLoop (infixLits : List String) (fuel : Nat) (pos : Nat) (s : List Char) :
    List (Nat × List Char × List Char) :=
  match fuel with
  | 0 => []
  | fuel + 1 =>
    match s with
    | [] => []
    | _ :: tail =>
      match matchPairAt infixLits s with
      | some (g1, g2, rest) =>
        (pos, g1, g2) :: execPairLoop infixLits fuel (pos + (s.length - rest.length)) rest
      | none => execPairLoop infixLits fuel (pos + 1) tail

/-- JS `text.substring(a, b)` for `a ≤ b`, clamping to the text length
(`a` is already clamped at 0 by the callers' `Math.max`). -/
def substringJs (s : List Char) (a b : Nat) : List Char :=
  (s.drop a).take (b - a)

/-- One case-sensitive regex word `[A-Z][a-z]+`. -/
def wordSplitCS (s : List Char) : Option (List Char × List Char) :=
  match s with
  | c :: rest =>
    if 'A' ≤ c && c ≤ 'Z' then
      let w := rest.takeWhile fun d => 'a' ≤ d && d ≤ 'z'
      if 1 ≤ w.length then some (c :: w, rest.dropWhile fun d => 'a' ≤ d && d ≤ 'z')
      else none
    else none
  | [] => none

/-- Candidate case-sensitive phrases `[A-Z][a-z]+(?:\s+[A-Z][a-z]+)*`. -/
def chainCandsCS (fuel : Nat) (s : List Char) : List (List Char × List Char) :=
  match fuel with
  | 0 => []
  | fuel + 1 =>
    match wordSplitCS s with
    | none => []
    | some (w, r) =>
      (w, r) :: (match wsSplit r with
        | none => []
        | some (ws, r2) => (chainCandsCS fuel r2).map fun p => (w ++ ws ++ p.1, p.2))

def instSuffixes : List String := ["University", "College", "Institute", "School"]

/-- The tail `\s+(?:University|College|Institute|School)` of the
institution pattern (part_012:550-554); returns the consumed text. -/
def instTailAt (r1 : List Char) : Option (List Char) :=
  match wsSplit r1 with
  | none => none
  | some (ws, r2) =>
    instSuffixes.findSome? fun lit =>
      if lit.toList.isPrefixOf r2 then some (ws ++ lit.toList) else none

/-- The institution pattern anchored at the head of `s` (greedy phrase,
longest first). -/
def instMatchAt (s : List Char) : Option (List Char) :=
  ((chainCandsCS (s.length + 1) s).reverse).findSome? fun p =>
    (instTailAt p.2).map fun tail => p.1 ++ tail

/-- `context.match(...)` without `/g`: the leftmost institution match. -/
def findFirstInst (fuel : Nat) (s : List Char) : Option (List Char) :=
  match fuel, s with
  | 0, _ => none
  | _, [] => none
  | fuel + 1, _ :: tail =>
    match instMatchAt s with
    | some m => some m
    | none => findFirstInst fuel tail

/-- `extractInstitution` (part_012:550-554). -/
def extractInstitution (sectionText : List Char) (index : Nat) : String :=
  let context := substringJs sectionText (index - 100) (index + 100)
  match findFirstInst (context.length + 1) context with
  | some m => String.mk m
  | none => ""

def isDigitChar (c : Char) : Bool := '0' ≤ c && c ≤ '9'

/-- The leftmost match of `/(19|20)\d{2}/`. -/
def findYear : List Char → Option (List Char)
  | a :: b :: c :: d :: rest =>
    if ((a == '1' && b == '9') || (a == '2' && b == '0')) && isDigitChar c && isDigitChar d then
      some [a, b, c, d]
    else
      findYear (b :: c :: d :: rest)
  | _ => none

/-- `extractYear` (part_012:562-566). -/
def extractYear (sectionText : List Char) (index : Nat) : String :=
  let context := substringJs sectionText (index - 50) (index + 50)
  match findYear context with
  | some y => String.mk y
  | none => ""

def educationKeywords : List String :=
  ["education", "university", "college", "degree", "bachelor", "master", "phd",
   "diploma", "certificate"]

def nextSectionKeywords : List String :=
  ["education", "experience", "skills", "projects", "achievements", "certifications"]

def languageKeywords : List String := ["languages", "language", "fluent", "native"]

def commonLanguages : List String :=
  ["English", "Spanish", "French", "German", "Italian", "Portuguese", "Chinese",
   "Japanese", "Korean", "Arabic", "Hindi"]

/-- `findSection` (part_012:515-542): the span from the first line
containing a section keyword up to (excluding) the next line containing
a next-section keyword. -/
def findSection (text : String) (keywords : List String) : Option String :=
  let lines := (splitOnChar '\n' text.toList).map String.mk
  match lines.findIdx? (fun line => keywords.any fun keyword => containsStr (lowerStr line) keyword) with
  | none => none
  | some sectionStart =>
    let sectionEnd :=
      match (lines.drop (sectionStart + 1)).findIdx?
          (fun line => nextSectionKeywords.any fun keyword => containsStr (lowerStr line) keyword) with
      | some j => sectionStart + 1 + j
      | none => lines.length
    some (joinWith "\n" ((lines.drop sectionStart).take (sectionEnd - sectionStart)))

/-- `extractEducation` (part_012:283-304): one entry per match of the
degree pattern inside the education section — with no cap on the number
of entries. -/
def extractEducation (text : String) : List EduEntry :=
  match findSection text educationKeywords with
  | none => []
  | some sectionText =>
    let sec := sectionText.toList
    (execPairLoop ["in"] (sec.length + 1) 0 sec).map fun m =>
      { degree := String.mk m.2.1
        field := String.mk m.2.2
        institution := extractInstitution sec m.1
        year := extractYear sec m.1 }

/-- `extractLanguages` (part_012:395-410): membership test of the fixed
11-language vocabulary against the located section. -/
def extractLanguages (text : String) : List String :=
  match findSection text languageKeywords with
  | none => []
  | some languageSection =>
    commonLanguages.filter fun lang =>
      containsStr (lowerStr languageSection) (lowerStr lang)

def experienceKeywords : List String :=
  ["experience", "employment", "work", "career", "professional"]

def certKeywords : List String := ["certification", "certified", "license", "credential"]

def skillKeywords : List String := ["skills", "technical", "programming", "software", "tools"]

/-- `\d{4}` at the head of `s`: four digits, returned with the rest. -/
def digit4 (s : List Char) : Option (List Char × List Char) :=
  match s with
  | a :: b :: c :: d :: rest =>
    if isDigitChar a && isDigitChar b && isDigitChar c && isDigitChar d then
      some ([a, b, c, d], rest)
    else none
  | _ => none

/-- `\s*`: a (possibly empty) maximal whitespace run. -/
def wsStar (s : List Char) : List Char × List Char :=
  (s.takeWhile (isJsSpace ·), s.dropWhile (isJsSpace ·))

/-- `[-–]`: an ASCII hyphen or an en dash. -/
def dashSplit (s : List Char) : Option (Char × List Char) :=
  match s with
  | c :: rest => if c == '-' || c == '–' then some (c, rest) else none
  | [] => none

/-- Alternative `\d{4}\s*[-–]\s*\d{4}` of the duration pattern. -/
def durAlt1 (s : List Char) : Option (List Char) :=
  (digit4 s).bind fun p1 =>
    let w1 := wsStar p1.2
    (dashSplit w1.2).bind fun pd =>
      let w2 := wsStar pd.2
      (digit4 w2.2).map fun p2 => p1.1 ++ w1.1 ++ [pd.1] ++ w2.1 ++ p2.1

/-- Alternative `\d{4}\s*[-–]\s*present` (case-insensitive). -/
def durAlt2 (s : List Char) : Option (List Char) :=
  (digit4 s).bind fun p1 =>
    let w1 := wsStar p1.2
    (dashSplit w1.2).bind fun pd =>
      let w2 := wsStar pd.2
      if ciStartsWith "present" w2.2 then
        some (p1.1 ++ w1.1 ++ [pd.1] ++ w2.1 ++ w2.2.take 7)
      else none

/-- Alternative `jan\s*\d{4}\s*[-–]\s*dec\s*\d{4}` (case-insensitive). -/
def durAlt3 (s : List Char) : Option (List Char) :=
  if ciStartsWith "jan" s then
    let w0 := wsStar (s.drop 3)
    (digit4 w0.2).bind fun p1 =>
      let w1 := wsStar p1.2
      (dashSplit w1.2).bind fun pd =>
        let w2 := wsStar pd.2
        if ciStartsWith "dec" w2.2 then
          let w3 := wsStar (w2.2.drop 3)
          (digit4 w3.2).map fun p2 =>
            (s.take 3) ++ w0.1 ++ p1.1 ++ w1.1 ++ [pd.1] ++ w2.1 ++ (w2.2.take 3) ++ w3.1 ++ p2.1
        else none
  else none

/-- The leftmost match of the duration pattern (part_012:574-578),
alternatives tried in source order at each position. -/
def findDuration (fuel : Nat) (s : List Char) : Option (List Char) :=
  match fuel, s with
  | 0, _ => none
  | _, [] => none
  | fuel + 1, _ :: tail =>
    match durAlt1 s <|> durAlt2 s <|> durAlt3 s with
    | some m => some m
    | none => findDuration fuel tail

/-- `extractDuration` (part_012:574-578). -/
def extractDuration (sectionText : List Char) (index : Nat) : String :=
  let context := substringJs sectionText (index - 50) (index + 50)
  match findDuration (context.length + 1) context with
  | some m => String.mk m
  | none => ""

/-- `extractDescription` (part_012:586-589):
`substring(index, index + 200)` then `substring(0, 150).trim()`. -/
def extractDescription (sectionText : List Char) (index : Nat) : String :=
  let context := substringJs sectionText index (index + 200)
  String.mk (trimList (context.take 150))

/-- The leftmost case-sensitive phrase `[A-Z][a-z]+(?:\s+[A-Z][a-z]+)*`
in `s` (greedy), for `extractIssuer`. -/
def findFirstPhraseCS (fuel : Nat) (s : List Char) : Option (List Char) :=
  match fuel, s with
  | 0, _ => none
  | _, [] => none
  | fuel + 1, _ :: tail =>
    match (chainCandsCS (s.length + 1) s).getLast? with
    | some p => some p.1
    | none => findFirstPhraseCS fuel tail

/-- `extractIssuer` (part_012:597-601). -/
def extractIssuer (sectionText : List Char) (index : Nat) : String :=
  let context := substringJs sectionText (index - 100) (index + 100)
  match findFirstPhraseCS (context.length + 1) context with
  | some m => String.mk m
  | none => ""

/-- `extractExperience` (part_012:311-331): one entry per match of the
job pattern `/(phrase)\s+(?:at\s+|@\s+)?(phrase)/gi` inside the
experience section — with no cap on the number of entries. -/
def extractExperience (text : String) : List ExpEntry :=
  match findSection text experienceKeywords with
  | none => []
  | some sectionText =>
    let sec := sectionText.toList
    (execPairLoop ["at", "@"] (sec.length + 1) 0 sec).map fun m =>
      { title := String.mk m.2.1
        company := String.mk m.2.2
        duration := extractDuration sec m.1
        description := extractDescription sec m.1 }

/-- The certification pattern tail `\s+(?:Certification|Certificate|License)`
under `/i`; returns the remainder after the consumed literal. -/
def certTail (r1 : List Char) : Option (List Char) :=
  match wsSplit r1 with
  | none => none
  | some (_, r2) =>
    ["Certification", "Certificate", "License"].findSome? fun lit =>
      if ciStartsWith lit r2 then some (r2.drop lit.toList.length) else none

/-- A match of the certification pattern anchored at the head of `s`:
greedy first group, longest phrase first. -/
def certMatchAt (s : List Char) : Option (List Char × List Char) :=
  ((chainCands (s.length + 1) s).reverse).findSome? fun p =>
    (certTail p.2).map fun rest => (p.1, rest)

/-- The exec loop of the certification pattern: (match.index, group 1). -/
def execCertLoop (fuel : Nat) (pos : Nat) (s : List Char) : List (Nat × List Char) :=
  match fuel with
  | 0 => []
  | fuel + 1 =>
    match s with
    | [] => []
    | _ :: tail =>
      match certMatchAt s with
      | some (g1, rest) =>
        (pos, g1) :: execCertLoop fuel (pos + (s.length - rest.length)) rest
      | none => execCertLoop fuel (pos + 1) tail

/-- `extractCertifications` (part_012:370-388): one entry per match of
the certification pattern — with no cap on the number of entries. -/
def extractCertifications (text : String) : List CertEntry :=
  match findSection text certKeywords with
  | none => []
  | some sectionText =>
    let sec := sectionText.toList
    (execCertLoop (sec.length + 1) 0 sec).map fun m =>
      { name := String.mk m.2
        issuer := extractIssuer sec m.1
        year := extractYear sec m.1 }

/-- The four alternation vocabularies of the skill patterns
(part_012:345-350), in source order. -/
def skillPatternAlts : List (List String) :=
  [["JavaScript", "Python", "Java", "C++", "C#", "PHP", "Ruby", "Go", "Swift", "Kotlin"],
   ["React", "Angular", "Vue", "Node.js", "Express", "Django", "Flask", "Spring", "Laravel"],
   ["HTML", "CSS", "SQL", "MongoDB", "PostgreSQL", "MySQL", "Redis"],
   ["AWS", "Azure", "Docker", "Kubernetes", "Git", "Linux", "Windows"]]

/-- A match of a plain alternation pattern at the head of `s` under
`/i`: alternatives in source order, the matched text slice returned. -/
def altMatchAt (alts : List String) (s : List Char) : Option (List Char) :=
  alts.findSome? fun alt =>
    if ciStartsWith alt s then some (s.take alt.toList.length) else none

/-- The exec loop of an alternation pattern: all leftmost matches. -/
def execAltLoop (fuel : Nat) (alts : List String) (s : List Char) : List (List Char) :=
  match fuel, s with
  | 0, _ => []
  | _, [] => []
  | fuel + 1, _ :: tail =>
    match altMatchAt alts s with
    | some m => m :: execAltLoop fuel alts (s.drop m.length)
    | none => execAltLoop fuel alts tail

/-- The push step of `extractSkills` (part_012:354-357):
`if (!skills.includes(match[1])) skills.push(match[1])`.  The skill
patterns use non-capturing groups `(?:…)`, so `match[1]` is `undefined`
— modelled as `none` — regardless of the matched text. -/
def skillsPush (skills : List (Option String)) (_m : List Char) : List (Option String) :=
  if skills.contains (none : Option String) then skills else skills ++ [none]

/-- `extractSkills` (part_012:338-363): runs the four patterns over the
skills section and pushes the (undefined) first capture group of every
match, de-duplicated with `includes`. -/
def extractSkills (text : String) : List (Option String) :=
  match findSection text skillKeywords with
  | none => []
  | some skillsSection =>
    let sec := skillsSection.toList
    skillPatternAlts.foldl
      (fun skills alts => (execAltLoop (sec.length + 1) alts sec).foldl skillsPush skills)
      []

/-! ## Theorems -/

/-- The question ids across the three buckets of a mapping result. -/
def allMappingIds (m : Mappings) : List Nat :=
  m.autoFill.map (·.questionId) ++
    (m.aiSuggestions.map (·.questionId) ++ m.noMatch.map (·.questionId))

lemma allMappingIds_perm (d : DocData) (qs : List Question) :
    (allMappingIds (analyzeDocumentMapping d qs)).Perm (qs.map (·.id)) := by
  induction qs with
  | nil => simp [analyzeDocumentMapping, allMappingIds]
  | cons q rest ih =>
    simp only [analyzeDocumentMapping, List.map_cons]
    split
    · simpa [allMappingIds] using ih.cons q.id
    · split
      · refine List.Perm.trans ?_ (ih.cons q.id)
        simp only [allMappingIds]
        exact List.perm_middle
      · refine List.Perm.trans ?_ (ih.cons q.id)
        simp only [allMappingIds]
        exact List.Perm.trans (List.Perm.append_left _ List.perm_middle) List.perm_middle

/-- C1: `analyzeDocumentMapping` is total and exhaustive — the question
ids across the three buckets are a permutation of the input question
ids, the bucket sizes sum to the number of questions, and distinct input
ids yield distinct mapping ids (no omission, no duplication). -/
theorem c1_classify_total_partition (d : DocData) (qs : List Question) :
    (allMappingIds (analyzeDocumentMapping d qs)).Perm (qs.map (·.id))
    ∧ (analyzeDocumentMapping d qs).autoFill.length
        + (analyzeDocumentMapping d qs).aiSuggestions.length
        + (analyzeDocumentMapping d qs).noMatch.length = qs.length
    ∧ ((qs.map (·.id)).Nodup → (allMappingIds (analyzeDocumentMapping d qs)).Nodup) := by
  refine ⟨allMappingIds_perm d qs, ?_, fun h => ((allMappingIds_perm d qs).nodup_iff).mpr h⟩
  have h := (allMappingIds_perm d qs).length_eq
  simp [allMappingIds] at h
  omega

def c1qs : List Question :=
  [⟨1, "What skills do you have?", "multiple-choice", some ["JavaScript"]⟩,
   ⟨2, "Where do you see yourself in five years?", "text", none⟩]

/-- Witness for C1 at a concrete question list. -/
theorem c1_witness : (allMappingIds (analyzeDocumentMapping emptyDocData c1qs)).Nodup :=
  (c1_classify_total_partition emptyDocData c1qs).2.2 (by decide)

/-- Spec-side count (spec section 4.4): the number of relevant profile
data points for a question type — the length of the matching profile
list for the five directly matchable types, zero otherwise. -/
def specDataPointCount (d : DocData) (qt : String) : Nat :=
  match qt with
  | "skills" => d.skills.length
  | "education" => d.education.length
  | "experience" => d.experience.length
  | "certifications" => d.certifications.length
  | "languages" => d.languages.length
  | _ => 0

lemma hasDirectMatch_types {d : DocData} {qt : String}
    (hm : hasDirectMatch d qt = true) :
    qt = "skills" ∨ qt = "education" ∨ qt = "experience" ∨
      qt = "certifications" ∨ qt = "languages" := by
  unfold hasDirectMatch at hm
  split at hm <;> simp_all

lemma conf_as_count {d : DocData} {qt : String}
    (h5 : qt = "skills" ∨ qt = "education" ∨ qt = "experience" ∨
      qt = "certifications" ∨ qt = "languages") :
    calculateConfidence d qt = confOfCount (specDataPointCount d qt) := by
  rcases h5 with h | h | h | h | h <;> subst h <;> rfl

lemma hasDirectMatch_count_pos {d : DocData} {qt : String}
    (hm : hasDirectMatch d qt = true) : specDataPointCount d qt ≠ 0 := by
  unfold hasDirectMatch at hm
  split at hm <;>
    simp_all [specDataPointCount, List.isEmpty_iff, ← List.length_eq_zero]

lemma confOfCount_mono {n m : Nat} (h : n ≤ m) : confOfCount n ≤ confOfCount m := by
  unfold confOfCount
  split
  · split
    · exact le_refl 0
    · exact le_min (by positivity) (by norm_num)
  · split
    · omega
    · refine min_le_min ?_ le_rfl
      have : (n : ℚ) ≤ (m : ℚ) := by exact_mod_cast h
      linarith
  
lemma confOfCount_cap {n : Nat} (h : 3 ≤ n) : confOfCount n = 1 := by
  have hn : n ≠ 0 := by omega
  have h3 : (3 : ℚ) ≤ (n : ℚ) := by exact_mod_cast h
  have : (1 : ℚ) ≤ (n : ℚ) / 3 := by
    rw [le_div_iff₀ (by norm_num : (0:ℚ) < 3)]
    linarith
  simp [confOfCount, hn, min_eq_right this]

lemma mem_autoFill_of_hasDirectMatch (d : DocData) (qs : List Question) (q : Question)
    (hq : q ∈ qs)
    (hm : hasDirectMatch d (determineQuestionType q.text) = true) :
    (⟨q.id, q.text, determineQuestionType q.text,
        calculateConfidence d (determineQuestionType q.text)⟩ : AutoMapping)
      ∈ (analyzeDocumentMapping d qs).autoFill := by
  induction qs with
  | nil => cases hq
  | cons a rest ih =>
    rcases List.mem_cons.mp hq with h | h
    · subst h
      simp only [analyzeDocumentMapping, hm, if_true]
      exact List.mem_cons_self _ _
    · have ihh := ih h
      simp only [analyzeDocumentMapping]
      split
      · exact List.mem_cons_of_mem _ ihh
      · split
        · exact ihh
        · exact ihh

/-- C2: a question type with at least one relevant data point is routed
to the auto-fill bucket with confidence `min(dataPointCount / 3, 1)`;
that confidence is monotone in the data-point count and is exactly 1
once the count reaches 3.  Having a data point (`hasDirectMatch`) is
equivalent to a positive `specDataPointCount`. -/
theorem c2_autofill_confidence (d : DocData) (qs : List Question) (q : Question)
    (hq : q ∈ qs)
    (hm : hasDirectMatch d (determineQuestionType q.text) = true) :
    (⟨q.id, q.text, determineQuestionType q.text,
        calculateConfidence d (determineQuestionType q.text)⟩ : AutoMapping)
      ∈ (analyzeDocumentMapping d qs).autoFill
    ∧ calculateConfidence d (determineQuestionType q.text)
        = min ((specDataPointCount d (determineQuestionType q.text) : ℚ) / 3) 1
    ∧ (∀ d' : DocData,
        specDataPointCount d (determineQuestionType q.text)
            ≤ specDataPointCount d' (determineQuestionType q.text) →
        calculateConfidence d (determineQuestionType q.text)
            ≤ calculateConfidence d' (determineQuestionType q.text))
    ∧ (3 ≤ specDataPointCount d (determineQuestionType q.text) →
        calculateConfidence d (determineQuestionType q.text) = 1) := by
  have h5 := hasDirectMatch_types hm
  have hpos := hasDirectMatch_count_pos hm
  refine ⟨mem_autoFill_of_hasDirectMatch d qs q hq hm, ?_, ?_, ?_⟩
  · rw [conf_as_count h5]
    simp [confOfCount, hpos]
  · intro d' hle
    rw [conf_as_count h5, conf_as_count h5]
    exact confOfCount_mono hle
  · intro h3
    rw [conf_as_count h5]
    exact confOfCount_cap h3

def c2d : DocData := { emptyDocData with skills := ["JavaScript", "Python"] }

def c2q : Question :=
  ⟨10, "What skills do you have?", "multiple-choice", some ["JavaScript", "Python", "Java"]⟩

/-- Witness for C2: two skills give the spec's scenario confidence
`min(2/3, 1) = 2/3`. -/
theorem c2_witness :
    (⟨10, "What skills do you have?", determineQuestionType c2q.text,
        calculateConfidence c2d (determineQuestionType c2q.text)⟩ : AutoMapping)
      ∈ (analyzeDocumentMapping c2d [c2q]).autoFill
    ∧ calculateConfidence c2d (determineQuestionType c2q.text)
        = min ((specDataPointCount c2d (determineQuestionType c2q.text) : ℚ) / 3) 1 := by
  have h := c2_autofill_confidence c2d [c2q] c2q (by simp) (by decide)
  exact ⟨h.1, h.2.1⟩

lemma dqt_canGenerate (text : String) :
    canGenerateSuggestions (determineQuestionType text) = true := by
  unfold determineQuestionType
  lift_lets
  extract_lets t
  split_ifs <;> decide

lemma noMatch_empty (d : DocData) (qs : List Question) :
    (analyzeDocumentMapping d qs).noMatch = [] := by
  induction qs with
  | nil => rfl
  | cons q rest ih =>
    simp only [analyzeDocumentMapping]
    split
    · exact ih
    · split
      · exact ih
      · exact absurd (dqt_canGenerate q.text) (by assumption)

def c3q : Question := ⟨1, "Please upload your portfolio file", "upload", none⟩

def failCollab : Question → Except String String := fun _ => .error "request failed"

/-- C3 counterexample: an upload-type question whose text matches none
of the keyword groups is inferred as `general`, which IS in the
AI-generatable set — it lands in the ai-suggestion bucket (not
no-match) and an Answer IS produced for it. -/
theorem c3_counterexample :
    determineQuestionType c3q.text = "general"
    ∧ (analyzeDocumentMapping emptyDocData [c3q]).noMatch = []
    ∧ (analyzeDocumentMapping emptyDocData [c3q]).aiSuggestions.map (·.questionId) = [1]
    ∧ (generatePreFilledAnswers failCollab [c3q] emptyDocData
        (analyzeDocumentMapping emptyDocData [c3q])).map Prod.fst = [1] := by
  decide

/-- C3 amended: every inferred question type lies in the AI-generatable
set, so the classifier's no-match bucket is empty for every profile and
question list; a question matching no keyword group is classified
`general` and routed to ai-suggestion (an answer is produced for it, as
the counterexample shows). -/
theorem c3_amended :
    (∀ text : String, canGenerateSuggestions (determineQuestionType text) = true)
    ∧ ∀ (d : DocData) (qs : List Question), (analyzeDocumentMapping d qs).noMatch = [] :=
  ⟨dqt_canGenerate, noMatch_empty⟩

lemma getFallbackAnswer_headD (qt : String) (opts : List String) :
    getFallbackAnswer qt opts = opts.headD "Not specified" := by
  cases opts with
  | nil =>
    show getFallbackAnswer qt [] = "Not specified"
    unfold getFallbackAnswer
    split
    · exact absurd (by assumption : ([] : List String) = _) (by simp)
    · split <;> rfl
  | cons o rest => rfl

def c4q : Question := ⟨2, "Do you have any certifications?", "yes/no", some ["Alpha"]⟩

/-- C4 counterexample: when the collaborator's output ("Omega") matches
no supplied option, the Answer keeps the raw output instead of falling
back to the first option; and when the collaborator errors, the source
field is "ai-generation", never "fallback". -/
theorem c4_counterexample :
    (generateAISuggestions (.ok "Omega") c4q emptyDocData "certifications").answer = "Omega"
    ∧ (generateAISuggestions (.ok "Omega") c4q emptyDocData "certifications").answer ≠ "Alpha"
    ∧ (generateAISuggestions (.ok "Omega") c4q emptyDocData "certifications").confidence = 7/10
    ∧ (generateAISuggestions (.error "timeout") c4q emptyDocData "certifications").source
        = "ai-generation"
    ∧ (generateAISuggestions (.error "timeout") c4q emptyDocData "certifications").source
        ≠ "fallback" := by
  exact ⟨by decide, by decide, rfl, rfl, by decide⟩

/-- C4 amended: only a collaborator error (unavailable/timeout) produces
the fallback answer — first supplied option, else "Not specified" — with
confidence 0.3 and the fallback recorded in metadata, while the source
field stays "ai-generation"; on collaborator success the Answer keeps
the parsed output with confidence 0.7 and no fallback, even when that
output matches no option. -/
theorem c4_amended (q : Question) (d : DocData) (qt msg raw : String) :
    (generateAISuggestions (.error msg) q d qt).answer
        = (q.options.getD []).headD "Not specified"
    ∧ (generateAISuggestions (.error msg) q d qt).confidence = 3/10
    ∧ (generateAISuggestions (.error msg) q d qt).fallback = true
    ∧ (generateAISuggestions (.error msg) q d qt).source = "ai-generation"
    ∧ (generateAISuggestions (.ok raw) q d qt).answer
        = parseDirectAnswer raw (q.options.getD [])
    ∧ (generateAISuggestions (.ok raw) q d qt).confidence = 7/10
    ∧ (generateAISuggestions (.ok raw) q d qt).fallback = false
    ∧ (generateAISuggestions (.ok raw) q d qt).source = "ai-generation" := by
  refine ⟨?_, rfl, rfl, rfl, rfl, rfl, rfl, rfl⟩
  simpa [generateAISuggestions, generateDirectAnswer] using
    getFallbackAnswer_headD qt (q.options.getD [])

def c5d : DocData := { emptyDocData with skills := ["JavaScript"] }

def c5q : Question :=
  ⟨3, "Which skill is your strongest?", "multiple-choice", some ["JavaScript", "Java"]⟩

/-- C5 counterexample: the classifier computes confidence
`min(1/3, 1) = 1/3` for this auto-fill mapping, but the produced
Answer carries the fixed constant 0.9 — the confidence is NOT carried
over from the classifier. -/
theorem c5_counterexample :
    (analyzeDocumentMapping c5d [c5q]).autoFill.map (·.confidence)
        = [calculateConfidence c5d "skills"]
    ∧ calculateConfidence c5d "skills" = 1/3
    ∧ (generateAutoFillAnswer c5q c5d (determineQuestionType c5q.text)).confidence = 9/10
    ∧ ((9 : ℚ)/10 ≠ 1/3) := by
  refine ⟨rfl, ?_, rfl, by norm_num⟩
  show confOfCount c5d.skills.length = 1/3
  have h1 : c5d.skills.length = 1 := rfl
  rw [h1]
  simp only [confOfCount, Nat.cast_one]
  rw [if_neg one_ne_zero, min_eq_left (by norm_num)]

/-- C5 amended: the auto-fill Answer's confidence is one of the fixed
constants 0 (no match), 0.8 (free-text formatting) or 0.9 (matched
multiple-choice option) — not the classifier's `min(count/3, 1)` — and
the AI-suggestion Answer's confidence is 0.7 on collaborator success
and 0.3 on collaborator failure. -/
theorem c5_amended (q : Question) (d : DocData) (qt : String)
    (collab : Except String String) :
    ((generateAutoFillAnswer q d qt).confidence = 0
      ∨ (generateAutoFillAnswer q d qt).confidence = 8/10
      ∨ (generateAutoFillAnswer q d qt).confidence = 9/10)
    ∧ (generateAISuggestions collab q d qt).confidence
        = (match collab with | .ok _ => (7 : ℚ)/10 | .error _ => 3/10) := by
  constructor
  · unfold generateAutoFillAnswer autoFillRes
    dsimp only
    repeat' split
    all_goals simp
  · cases collab <;> rfl

/-- A key property is "present" in the JS truthiness sense. -/
def keyTruthy : Option String → Bool
  | some s => !(s == "")
  | none => false

/-- An item is a duplicate of itself exactly when it is a plain string
or has at least one present key property. -/
def selfDupOk {α : Type} [ItemLike α] (x : α) : Bool :=
  match ItemLike.view x with
  | .str _ => true
  | .obj n t dg c => keyTruthy n || keyTruthy t || keyTruthy dg || keyTruthy c

lemma keyMatch_self (a : Option String) (h : keyTruthy a = true) : keyMatch a a = true := by
  cases a with
  | none => simp [keyTruthy] at h
  | some s =>
    simp only [keyTruthy] at h
    simp [keyMatch, h]

lemma isDuplicate_self {α : Type} [ItemLike α] (l : List α) (x : α)
    (hx : x ∈ l) (h : selfDupOk x = true) : isDuplicate l x = true := by
  cases hv : ItemLike.view x with
  | str s =>
    simp only [isDuplicate, hv]
    refine List.any_eq_true.mpr ⟨x, hx, ?_⟩
    simp [hv]
  | obj n t dg c =>
    simp only [selfDupOk, hv] at h
    simp only [isDuplicate, hv]
    refine List.any_eq_true.mpr ⟨x, hx, ?_⟩
    simp only [hv]
    rcases Bool.or_eq_true_iff.mp h with h' | hc
    · rcases Bool.or_eq_true_iff.mp h' with h'' | hdg
      · rcases Bool.or_eq_true_iff.mp h'' with hn | ht
        · simp [keyMatch_self n hn]
        · simp [keyMatch_self t ht]
      · simp [keyMatch_self dg hdg]
    · simp [keyMatch_self c hc]

lemma isDuplicate_mono {α : Type} [ItemLike α] (l t : List α) (x : α)
    (h : isDuplicate l x = true) : isDuplicate (l ++ t) x = true := by
  cases hv : ItemLike.view x <;>
    simp only [isDuplicate, hv, List.any_append] at h ⊢ <;>
    simp [h]

lemma mergeList_suffix {α : Type} [ItemLike α] (items : List α) :
    ∀ acc, ∃ t, mergeList acc items = acc ++ t := by
  induction items with
  | nil => exact fun acc => ⟨[], by simp [mergeList]⟩
  | cons y ys ih =>
    intro acc
    show ∃ t, mergeList (if isDuplicate acc y then acc else acc ++ [y]) ys = acc ++ t
    by_cases hd : isDuplicate acc y = true
    · simpa [hd] using ih acc
    · obtain ⟨t, ht⟩ := ih (acc ++ [y])
      exact ⟨y :: t, by simp [hd, ht]⟩

lemma mergeList_mem_dup {α : Type} [ItemLike α] (items : List α)
    (h : ∀ x ∈ items, selfDupOk x = true) :
    ∀ acc, ∀ x ∈ items, isDuplicate (mergeList acc items) x = true := by
  induction items with
  | nil => intro acc x hx; cases hx
  | cons y ys ih =>
    intro acc x hx
    have step : mergeList acc (y :: ys)
        = mergeList (if isDuplicate acc y then acc else acc ++ [y]) ys := rfl
    rcases List.mem_cons.mp hx with rfl | hx'
    · by_cases hd : isDuplicate acc x = true
      · obtain ⟨t, ht⟩ := mergeList_suffix ys acc
        rw [step, if_pos hd, ht]
        exact isDuplicate_mono _ _ _ hd
      · obtain ⟨t, ht⟩ := mergeList_suffix ys (acc ++ [x])
        rw [step, if_neg hd, ht]
        exact isDuplicate_mono _ _ _
          (isDuplicate_self (acc ++ [x]) x (by simp) (h x (by simp)))
    · exact ih (fun z hz => h z (List.mem_cons_of_mem _ hz)) _ x hx'

lemma mergeList_absorb {α : Type} [ItemLike α] (items : List α) :
    ∀ acc, (∀ x ∈ items, isDuplicate acc x = true) → mergeList acc items = acc := by
  induction items with
  | nil => intro acc _; rfl
  | cons y ys ih =>
    intro acc h
    show mergeList (if isDuplicate acc y then acc else acc ++ [y]) ys = acc
    rw [if_pos (h y (by simp))]
    exact ih acc fun z hz => h z (by simp [hz])

/-- Merging a list into the result of merging it once adds nothing. -/
lemma mergeList_idem {α : Type} [ItemLike α] (items : List α)
    (h : ∀ x ∈ items, selfDupOk x = true) :
    mergeList (mergeList [] items) items = mergeList [] items :=
  mergeList_absorb items _ (fun x hx => mergeList_mem_dup items h [] x hx)

lemma selfDupOk_str (s : String) : selfDupOk s = true := rfl

lemma selfDupOk_edu (e : EduEntry) (h : e.degree ≠ "") : selfDupOk e = true := by
  show (keyTruthy none || keyTruthy none || keyTruthy (some e.degree) || keyTruthy none) = true
  simp [keyTruthy, h]

lemma selfDupOk_exp (e : ExpEntry) (h : e.title ≠ "" ∨ e.company ≠ "") : selfDupOk e = true := by
  show (keyTruthy none || keyTruthy (some e.title) || keyTruthy none
    || keyTruthy (some e.company)) = true
  rcases h with h | h <;> simp [keyTruthy, h]

lemma selfDupOk_cert (c : CertEntry) (h : c.name ≠ "") : selfDupOk c = true := by
  show (keyTruthy (some c.name) || keyTruthy none || keyTruthy none || keyTruthy none) = true
  simp [keyTruthy, h]

lemma selfDupOk_proj (p : ProjEntry) (h : p.name ≠ "") : selfDupOk p = true := by
  show (keyTruthy (some p.name) || keyTruthy none || keyTruthy none || keyTruthy none) = true
  simp [keyTruthy, h]

lemma selfDupOk_ach (a : AchEntry) (h : a.title ≠ "") : selfDupOk a = true := by
  show (keyTruthy none || keyTruthy (some a.title) || keyTruthy none || keyTruthy none) = true
  simp [keyTruthy, h]

/-- C6: merging a profile fragment with itself leaves every list field
unchanged, provided each structured item carries a present (non-empty)
de-duplication key — `degree` for education, `title`/`company` for
experience, `name` for certifications and projects, `title` for
achievements (plain strings always equal themselves). -/
theorem c6_merge_idempotent (data : DocData)
    (hedu : ∀ e ∈ data.education, e.degree ≠ "")
    (hexp : ∀ e ∈ data.experience, e.title ≠ "" ∨ e.company ≠ "")
    (hcert : ∀ c ∈ data.certifications, c.name ≠ "")
    (hproj : ∀ p ∈ data.projects, p.name ≠ "")
    (hach : ∀ a ∈ data.achievements, a.title ≠ "") :
    (combineDocumentData [⟨true, some data⟩, ⟨true, some data⟩]).skills
        = (combineDocumentData [⟨true, some data⟩]).skills
    ∧ (combineDocumentData [⟨true, some data⟩, ⟨true, some data⟩]).education
        = (combineDocumentData [⟨true, some data⟩]).education
    ∧ (combineDocumentData [⟨true, some data⟩, ⟨true, some data⟩]).experience
        = (combineDocumentData [⟨true, some data⟩]).experience
    ∧ (combineDocumentData [⟨true, some data⟩, ⟨true, some data⟩]).certifications
        = (combineDocumentData [⟨true, some data⟩]).certifications
    ∧ (combineDocumentData [⟨true, some data⟩, ⟨true, some data⟩]).languages
        = (combineDocumentData [⟨true, some data⟩]).languages
    ∧ (combineDocumentData [⟨true, some data⟩, ⟨true, some data⟩]).projects
        = (combineDocumentData [⟨true, some data⟩]).projects
    ∧ (combineDocumentData [⟨true, some data⟩, ⟨true, some data⟩]).achievements
        = (combineDocumentData [⟨true, some data⟩]).achievements := by
  refine ⟨?_, ?_, ?_, ?_, ?_, ?_, ?_⟩
  · show mergeList (mergeList [] data.skills) data.skills = mergeList [] data.skills
    exact mergeList_idem _ (fun x _ => selfDupOk_str x)
  · show mergeList (mergeList [] data.education) data.education
        = mergeList [] data.education
    exact mergeList_idem _ (fun e he => selfDupOk_edu e (hedu e he))
  · show mergeList (mergeList [] data.experience) data.experience
        = mergeList [] data.experience
    exact mergeList_idem _ (fun e he => selfDupOk_exp e (hexp e he))
  · show mergeList (mergeList [] data.certifications) data.certifications
        = mergeList [] data.certifications
    exact mergeList_idem _ (fun c hc => selfDupOk_cert c (hcert c hc))
  · show mergeList (mergeList [] data.languages) data.languages
        = mergeList [] data.languages
    exact mergeList_idem _ (fun x _ => selfDupOk_str x)
  · show mergeList (mergeList [] data.projects) data.projects
        = mergeList [] data.projects
    exact mergeList_idem _ (fun p hp => selfDupOk_proj p (hproj p hp))
  · show mergeList (mergeList [] data.achievements) data.achievements
        = mergeList [] data.achievements
    exact mergeList_idem _ (fun a ha => selfDupOk_ach a (hach a ha))

def c6data : DocData :=
  { emptyDocData with
    skills := ["JavaScript", "JavaScript", "Python"]
    education := [⟨"Bachelor", "Science", "", ""⟩]
    experience := [⟨"Software Engineer", "Acme", "", ""⟩,
                   ⟨"SOFTWARE ENGINEER", "Acme Inc", "2020", ""⟩] }

/-- Witness for C6 on a concrete profile (with a case-insensitive
duplicate experience entry and a duplicated skill). -/
theorem c6_witness :
    (combineDocumentData [⟨true, some c6data⟩, ⟨true, some c6data⟩]).skills
        = (combineDocumentData [⟨true, some c6data⟩]).skills
    ∧ (combineDocumentData [⟨true, some c6data⟩, ⟨true, some c6data⟩]).experience
        = (combineDocumentData [⟨true, some c6data⟩]).experience := by
  have h := c6_merge_idempotent c6data (by decide) (by decide) (by decide)
    (by decide) (by decide)
  exact ⟨h.1, h.2.2.1⟩

/-- A parse outcome in which every document fails extraction. -/
def allFailParse : FileInfo → ParsedDoc := fun _ => ⟨false, none⟩

def c7file : FileInfo := ⟨"/tmp/upload1.pdf", "application/pdf", "resume.pdf"⟩

def c7q : Question := ⟨5, "What are your career goals?", "text", none⟩

/-- C7 counterexample: a batch in which every supplied document fails
extraction is NOT fatal — the pipeline reports success, the controller
answers 200, and the merged profile is simply empty. -/
theorem c7_counterexample :
    (processDocumentsAndPreFill allFailParse failCollab [c7file] [c7q]).success = true
    ∧ (preFillQuestionsRun true allFailParse failCollab [c7file] [c7q] true).ok = true
    ∧ (preFillQuestionsRun true allFailParse failCollab [c7file] [c7q] true).status = 200
    ∧ combineDocumentData (parseAllDocuments allFailParse [c7file]) = emptyDocData := by
  exact ⟨rfl, rfl, rfl, by decide⟩

/-- C7 amended: with an authenticated user and log persistence working,
the pre-fill request fails exactly when no documents or no questions
are supplied; total extraction failure still yields success (see the
counterexample, where the merged profile is empty). -/
theorem c7_amended (parse : FileInfo → ParsedDoc)
    (collab : Question → Except String String)
    (files : List FileInfo) (questions : List Question) :
    ((preFillQuestionsRun true parse collab files questions true).ok = false)
      ↔ (files = [] ∨ questions = []) := by
  cases files <;> cases questions <;>
    simp [preFillQuestionsRun, processDocumentsAndPreFill]

def c8file : FileInfo := ⟨"/tmp/upload2.pdf", "application/pdf", "cv.pdf"⟩

/-- C8 counterexample: with a file uploaded but no active questions,
the controller returns the 404 failure WITHOUT invoking cleanup — the
uploaded temporary file is left behind on that completion path. -/
theorem c8_counterexample :
    (preFillQuestionsRun true allFailParse failCollab [c8file] [] true).status = 404
    ∧ (preFillQuestionsRun true allFailParse failCollab [c8file] [] true).cleaned = false := by
  exact ⟨rfl, rfl⟩

/-- C8 amended: cleanup of the batch's uploaded files runs exactly when
the request passes validation (authenticated user, at least one file,
at least one active question) — both on the success path and on the
thrown-exception path (failing log save); the early validation returns
(no documents, no active questions, bad role) do not clean up. -/
theorem c8_amended (authOk : Bool) (parse : FileInfo → ParsedDoc)
    (collab : Question → Except String String)
    (files : List FileInfo) (questions : List Question) (logSaveOk : Bool) :
    (preFillQuestionsRun authOk parse collab files questions logSaveOk).cleaned
      = (authOk && !files.isEmpty && !questions.isEmpty) := by
  cases authOk <;> cases files <;> cases questions <;> cases logSaveOk <;>
    simp [preFillQuestionsRun, processDocumentsAndPreFill]

def eduCexText : String := "Education,\nAa Bb,\nCc Dd,\nEe Ff,\nGg Hh,\nIi Jj,\nKk Ll,"

/-- C9 counterexample: `extractEducation` has no cap — this education
section yields six entries, exceeding the claimed bound of five. -/
theorem c9_counterexample : 5 < (extractEducation eduCexText).length := by decide

def expCexText : String :=
  "Experience,\nAa Bb,\nCc Dd,\nEe Ff,\nGg Hh,\nIi Jj,\nKk Ll,\nMm Nn,\nOo Pp,\nQq Rr,\nSs Tt,\nUu Vv,"

def certCexText : String :=
  "Certifications,\nAa Certificate,\nBb Certificate,\nCc Certificate,\nDd Certificate,\nEe Certificate,\nFf Certificate,\nGg Certificate,\nHh Certificate,\nIi Certificate,\nJj Certificate,\nKk Certificate,"

lemma skillsPush_inv (skills : List (Option String)) (m : List Char)
    (h : skills = [] ∨ skills = [none]) :
    skillsPush skills m = [] ∨ skillsPush skills m = [none] := by
  rcases h with rfl | rfl <;> simp [skillsPush]

lemma foldl_skillsPush_inv (ms : List (List Char)) :
    ∀ skills, skills = [] ∨ skills = [none] →
      ms.foldl skillsPush skills = [] ∨ ms.foldl skillsPush skills = [none] := by
  induction ms with
  | nil => intro skills h; simpa using h
  | cons m ms ih => intro skills h; exact ih _ (skillsPush_inv skills m h)

/-- `extractSkills` only ever produces the empty array or the singleton
`[undefined]`: every pushed value is the non-captured `match[1]`. -/
lemma extractSkills_inv (text : String) :
    extractSkills text = [] ∨ extractSkills text = [none] := by
  unfold extractSkills
  split
  · exact Or.inl rfl
  · simp only [skillPatternAlts, List.foldl_cons, List.foldl_nil]
    exact foldl_skillsPush_inv _ _ (foldl_skillsPush_inv _ _
      (foldl_skillsPush_inv _ _ (foldl_skillsPush_inv _ _ (Or.inl rfl))))

set_option maxRecDepth 8000

/-- C9 amended: of the claimed caps only the skills bound holds, and
degenerately so — the skill patterns' groups are non-capturing, so each
push stores the undefined `match[1]` and the `includes` de-duplication
stops after one entry (at most 1, hence within the claimed 20); and
`extractLanguages` is separately bounded by its fixed 11-language
vocabulary.  `extractEducation`, `extractExperience` and
`extractCertifications` impose no caps — one entry per pattern match —
and can exceed their claimed bounds of 5, 10 and 10 respectively. -/
theorem c9_amended :
    (∀ text : String, (extractSkills text).length ≤ 1)
    ∧ (∀ text : String, (extractSkills text).length ≤ 20)
    ∧ (∀ text : String, (extractLanguages text).length ≤ 11)
    ∧ (∃ text : String, 5 < (extractEducation text).length)
    ∧ (∃ text : String, 10 < (extractExperience text).length)
    ∧ (∃ text : String, 10 < (extractCertifications text).length) := by
  have hsk : ∀ text : String, (extractSkills text).length ≤ 1 := by
    intro text
    rcases extractSkills_inv text with h | h <;> simp [h]
  refine ⟨hsk, fun text => le_trans (hsk text) (by norm_num), ?_,
    ⟨eduCexText, by decide⟩, ⟨expCexText, by decide⟩, ⟨certCexText, by decide⟩⟩
  intro text
  unfold extractLanguages
  split
  · simp
  · exact le_trans (List.length_filter_le _ _) (by rfl)

/-- The profile values that the multiple-choice option search of
`generateAutoFillAnswer` consults for each question type. -/
def relevantStrings (d : DocData) (qt : String) : List String :=
  match qt with
  | "skills" => d.skills
  | "education" => d.education.map (·.degree)
  | "experience" => d.experience.map (·.title)
  | "certifications" => d.certifications.map (·.name)
  | "languages" => d.languages
  | _ => []

lemma autoFillRes_none (d : DocData) (q : Question) (qt : String) (opts : List String)
    (htype : q.type = "multiple-choice") (hopts : q.options = some opts)
    (hno : ∀ opt ∈ opts, ∀ v ∈ relevantStrings d qt, biMatch opt v = false) :
    autoFillRes q d qt = (none, 0) := by
  have hmc : (q.type == "multiple-choice" && q.options.isSome) = true := by
    simp [htype, hopts]
  have hget : q.options.getD [] = opts := by simp [hopts]
  unfold autoFillRes
  split
  · -- skills
    by_cases hsk : d.skills.isEmpty = true
    · simp [hsk]
    · have hfind : d.skills.find?
          (fun skill => (q.options.getD []).any fun option => biMatch option skill) = none := by
        rw [hget]
        refine List.find?_eq_none.mpr (fun skill hs => ?_)
        simp only [List.any_eq_true, not_exists]
        intro opt
        rw [not_and]
        intro hopt
        simp [hno opt hopt skill (by simpa [relevantStrings] using hs)]
      simp [hsk, hmc, hfind]
  · -- education
    cases hed : d.education with
    | nil => rfl
    | cons e rest =>
      have hfind : (q.options.getD []).find? (fun option => biMatch option e.degree) = none := by
        rw [hget]
        refine List.find?_eq_none.mpr (fun opt hopt => ?_)
        simp [hno opt hopt e.degree (by simp [relevantStrings, hed])]
      simp [hmc, hfind]
  · -- experience
    cases hex : d.experience with
    | nil => rfl
    | cons e rest =>
      have hfind : (q.options.getD []).find? (fun option => biMatch option e.title) = none := by
        rw [hget]
        refine List.find?_eq_none.mpr (fun opt hopt => ?_)
        simp [hno opt hopt e.title (by simp [relevantStrings, hex])]
      simp [hmc, hfind]
  · -- certifications
    cases hce : d.certifications with
    | nil => rfl
    | cons c rest =>
      have hfind : (q.options.getD []).find? (fun option => biMatch option c.name) = none := by
        rw [hget]
        refine List.find?_eq_none.mpr (fun opt hopt => ?_)
        simp [hno opt hopt c.name (by simp [relevantStrings, hce])]
      simp [hmc, hfind]
  · -- languages
    by_cases hla : d.languages.isEmpty = true
    · simp [hla]
    · have hfind : d.languages.find?
          (fun lang => (q.options.getD []).any fun option => biMatch option lang) = none := by
        rw [hget]
        refine List.find?_eq_none.mpr (fun lang hs => ?_)
        simp only [List.any_eq_true, not_exists]
        intro opt
        rw [not_and]
        intro hopt
        simp [hno opt hopt lang (by simpa [relevantStrings] using hs)]
      simp [hla, hmc, hfind]
  · rfl

/-- C10: for an auto-fill multiple-choice question where no supplied
option substring-matches (case-insensitively, in either direction) any
relevant profile entry, the produced answer object has `answer = null`,
`confidence = 0` and `source = 'document-parsing'`; in the pre-fill
pass the question keeps exactly that auto-fill answer regardless of the
collaborator — it is not re-routed to ai-suggestion and no fallback
value is substituted. -/
theorem c10_autofill_no_match (d : DocData) (q : Question) (qt : String) (opts : List String)
    (htype : q.type = "multiple-choice") (hopts : q.options = some opts)
    (hno : ∀ opt ∈ opts, ∀ v ∈ relevantStrings d qt, biMatch opt v = false) :
    generateAutoFillAnswer q d qt = ⟨"auto-fill", none, 0, "document-parsing"⟩
    ∧ ∀ (collab : Question → Except String String),
        hasDirectMatch d qt = true → determineQuestionType q.text = qt →
        generatePreFilledAnswers collab [q] d (analyzeDocumentMapping d [q])
          = [(q.id, AnswerVal.auto ⟨"auto-fill", none, 0, "document-parsing"⟩)] := by
  have hres := autoFillRes_none d q qt opts htype hopts hno
  have hmain : generateAutoFillAnswer q d qt = ⟨"auto-fill", none, 0, "document-parsing"⟩ := by
    unfold generateAutoFillAnswer
    rw [hres]
  refine ⟨hmain, fun collab hdm hdqt => ?_⟩
  have hmap : analyzeDocumentMapping d [q]
      = ⟨[⟨q.id, q.text, qt, calculateConfidence d qt⟩], [], []⟩ := by
    simp [analyzeDocumentMapping, hdqt, hdm]
  rw [hmap]
  unfold generatePreFilledAnswers
  simp [hmain]

def c10d : DocData := { emptyDocData with skills := ["Rust"] }

def c10q : Question := ⟨9, "Which programming skill?", "multiple-choice", some ["Java", "Go"]⟩

/-- Witness for C10: a skills profile `["Rust"]` against the options
`["Java", "Go"]` — no option matches, the auto-fill answer is null with
confidence 0, and the pre-fill result keeps it. -/
theorem c10_witness :
    generateAutoFillAnswer c10q c10d "skills"
        = ⟨"auto-fill", none, 0, "document-parsing"⟩
    ∧ generatePreFilledAnswers failCollab [c10q] c10d
          (analyzeDocumentMapping c10d [c10q])
        = [(9, AnswerVal.auto ⟨"auto-fill", none, 0, "document-parsing"⟩)] := by
  have h := c10_autofill_no_match c10d c10q "skills" ["Java", "Go"] rfl rfl (by decide)
  exact ⟨h.1, h.2 failCollab (by decide) (by decide)⟩
